/-
Verification of the waybar/sherlock weather scripts: a shallow embedding of
`src/waybar/scripts/open_meteo.py` (cache log, tooltip builder, location
resolver, main execution) and `src/sherlock/scripts/location.py`
(`coord_finder`, identical resolver logic), with theorems settling the
specification's claims about them.

Modelling conventions:
* JSON values are modelled by the inductive `JValue`.  Python numbers are
  modelled as integers (`Int`): every claim under study is invariant under
  the fractional part of the inputs, so `int(round(x))` and `int(x)` are the
  identity on the model.
* A line of the cache file is modelled after `json.loads`: either
  `CacheLine.malformed` (the parse raises `JSONDecodeError`) or
  `CacheLine.parsed v` with `v` the parsed JSON value.
* `time.time()` timestamps are modelled as integers.
* I/O (HTTP calls, file reads) is modelled by passing each call's result as
  an explicit argument; an exception from a call site is one of the
  constructors of the result type.
-/
import Mathlib

set_option autoImplicit false

namespace OpenMeteo

/-- A JSON value, as produced by `json.loads`.  Object fields are the items
of the resulting Python dict (keys unique, in insertion order). -/
inductive JValue where
  | null
  | bool (b : Bool)
  | num (n : Int)
  | str (s : String)
  | arr (elems : List JValue)
  | obj (fields : List (String × JValue))
deriving Repr

/-- One line of `~/.cache/weather_cache.log`, after `json.loads`:
`malformed` when the parse raises `JSONDecodeError`, `parsed v` otherwise. -/
inductive CacheLine where
  | malformed
  | parsed (v : JValue)
deriving Repr

/-- Model of `cache_entry.get("place") == place` from `get_cache`: the dict
lookup of key `"place"` compared with the (string) argument `place`. -/
def place_matches (kvs : List (String × JValue)) (place : String) : Bool :=
  match List.lookup "place" kvs with
  | some (JValue.str s) => s == place
  | _ => false

/-- The scanning loop of `get_cache`, running over the lines already reversed
(`for dater in reversed(dat)`).  A malformed line is skipped by the inner
`except json.JSONDecodeError`.  A line that parses to a non-object raises
`AttributeError` at `cache_entry.get`, which escapes the inner handler, is
caught by the outer `except Exception`, and makes the whole function return
`None` — the scan aborts. -/
def scan_cache : List CacheLine → String → Option JValue
  | [], _ => none
  | CacheLine.malformed :: rest, place => scan_cache rest place
  | CacheLine.parsed (JValue.obj kvs) :: rest, place =>
      if place_matches kvs place then some (JValue.obj kvs)
      else scan_cache rest place
  | CacheLine.parsed _ :: _, _ => none

/-- Model of `get_cache(place)` (open_meteo.py lines 43–62): scan the cache log from
the latest line to the oldest and return the first parsed object whose
`"place"` field equals `place`; `None` when the scan finds nothing (this also
covers the missing or empty file). -/
def get_cache (log : List CacheLine) (place : String) : Option JValue :=
  scan_cache log.reverse place

/-- The JSON object written by `weather_log`:
`{"place": place, "data": data, "timestamp": time.time()}`. -/
def cache_entry (place : String) (data : JValue) (ts : Int) : JValue :=
  JValue.obj [("place", JValue.str place), ("data", data), ("timestamp", JValue.num ts)]

/-- Model of `weather_log(place, data)` (open_meteo.py lines 15–23): append one JSON
line to the cache log.  `json.dumps` followed by `json.loads` is the identity
on the model, so the appended line is `parsed (cache_entry place data ts)`. -/
def weather_log (log : List CacheLine) (place : String) (data : JValue) (ts : Int) :
    List CacheLine :=
  log ++ [CacheLine.parsed (cache_entry place data ts)]

/-- The well-formed entry (parsed JSON object) a cache line contributes for
`place`, if any: the unit of the spec's "well-formed entries whose place
field equals the given place". -/
def match_entry (place : String) : CacheLine → Option JValue
  | CacheLine.parsed (JValue.obj kvs) =>
      if place_matches kvs place then some (JValue.obj kvs) else none
  | _ => none

/-- The well-formed entries of the log matching `place`, in file order. -/
def matching_entries (log : List CacheLine) (place : String) : List JValue :=
  log.filterMap (match_entry place)

/-- The `"timestamp"` field of a cache entry, read as an integer
(`0` when absent or not a number; the claims only ever compare timestamps of
entries that have one). -/
def entry_timestamp (v : JValue) : Int :=
  match v with
  | JValue.obj kvs =>
      match List.lookup "timestamp" kvs with
      | some (JValue.num n) => n
      | _ => 0
  | _ => 0

/-- The timestamps of the matching well-formed entries, in file order. -/
def match_timestamps (log : List CacheLine) (place : String) : List Int :=
  (matching_entries log place).map entry_timestamp

/-- The specification's description of cache lookup, stated of `get_cache`:
the result is a matching well-formed entry whose timestamp is the latest
among all matching well-formed entries, and the lookup comes back empty
exactly when no well-formed entry matches. -/
def latest_timestamp_spec (log : List CacheLine) (place : String) : Prop :=
  (get_cache log place = none → match_timestamps log place = []) ∧
  (∀ e, get_cache log place = some e →
    entry_timestamp e ∈ match_timestamps log place ∧
    ∀ t ∈ match_timestamps log place, t ≤ entry_timestamp e)

/-- Whether a line either fails to parse or parses to a JSON object. -/
def line_is_object : CacheLine → Bool
  | CacheLine.malformed => true
  | CacheLine.parsed (JValue.obj _) => true
  | CacheLine.parsed _ => false

/-- Every line of the log either fails to parse or parses to a JSON object
(so the `AttributeError` abort of `get_cache` never fires). -/
def all_lines_objects (log : List CacheLine) : Prop :=
  ∀ l ∈ log, line_is_object l = true

/-! ### Icon tables and weather data (open_meteo.py lines 224–273, 68–107) -/

/-- Glyph for weather codes 95/96/99 (U+F067E, outside the basic plane, so it
is spelled by code point here). -/
def storm_icon : String := String.singleton (Char.ofNat 0xf067e)

/-- The `icons_day` table (open_meteo.py lines 224–248), glyphs spelled by
code point. -/
def icons_day : List (String × String) :=
  [("0", ""), ("1", ""), ("2", ""), ("3", ""),
   ("45", ""), ("48", ""), ("51", ""), ("53", ""),
   ("55", ""), ("61", ""), ("63", ""), ("65", ""),
   ("71", ""), ("73", ""), ("75", ""), ("80", ""),
   ("81", ""), ("82", ""), ("85", ""), ("86", ""),
   ("95", storm_icon), ("96", storm_icon), ("99", storm_icon)]

/-- The `icons_night` table (open_meteo.py lines 249–273), glyphs spelled by
code point. -/
def icons_night : List (String × String) :=
  [("0", ""), ("1", ""), ("2", ""), ("3", ""),
   ("45", ""), ("48", ""), ("51", ""), ("53", ""),
   ("55", ""), ("61", ""), ("63", ""), ("65", ""),
   ("71", ""), ("73", ""), ("75", ""), ("80", ""),
   ("81", ""), ("82", ""), ("85", ""), ("86", ""),
   ("95", storm_icon), ("96", storm_icon), ("99", storm_icon)]

/-- Model of `icons_day.get(code, "")`: day-table lookup with default `""`. -/
def icons_day_get (code : String) : String := (List.lookup code icons_day).getD ""

/-- Model of `icons_night.get(code, "")`: night-table lookup with default `""`. -/
def icons_night_get (code : String) : String := (List.lookup code icons_night).getD ""

/-- The icon chosen in the main block (open_meteo.py lines 295–297):
`icons_day.get(code, "") if is_day else icons_night.get(code, "")`, with
Python truthiness of the integer `is_day`. -/
def select_icon (code : String) (is_day : Int) : String :=
  if is_day ≠ 0 then icons_day_get code else icons_night_get code

/-- The fields of `weather_data["current"]` that the script reads.  All five
numeric fields are modelled as present (no claim involves their absence);
values are integers per the numeric modelling convention. -/
structure CurrentData where
  temperature_2m : Int
  relative_humidity_2m : Int
  apparent_temperature : Int
  weather_code : Int
  wind_speed_10m : Int
  is_day : Int
deriving Repr

/-- The fields of `weather_data["hourly"]` that the script reads.
`precipitation_probability` is `none` when the key is absent (its absence is
observable: `hourly.get` versus `hourly[...]`). -/
structure HourlyData where
  temperature_2m : List Int
  weather_code : List Int
  precipitation_probability : Option (List Int)
deriving Repr

/-- A weather payload: `current` is `none` when the `"current"` key is
missing, `hourly` is `none` when the `"hourly"` key is missing. -/
structure WeatherData where
  current : Option CurrentData
  hourly : Option HourlyData
deriving Repr

/-- Model of `str(display_hour).zfill(2)` for `display_hour < 24`. -/
def py_zfill2 (n : Nat) : String :=
  if n < 10 then "0" ++ toString n else toString n

/-- Python whitespace stripped by `str.strip()`. -/
def py_space (c : Char) : Bool :=
  c = ' ' || c = '\t' || c = '\n' || c = '\r' || c = '\x0b' || c = '\x0c'

/-- Model of `str.strip()`: drop leading and trailing whitespace. -/
def py_strip (s : String) : String :=
  String.mk (((s.data.dropWhile py_space).reverse.dropWhile py_space).reverse)

/-- One line of the "Next 3h" strip (open_meteo.py lines 94–102):
`f"{hour_time}: {hour_icon} {hour_temp}°{rain_text}\n"`. -/
def hour_line (current_hour i : Nat) (temp code rain : Int) : String :=
  py_zfill2 ((current_hour + i) % 24) ++ ": " ++ icons_day_get (toString code) ++ " " ++
    toString temp ++ "°" ++ (if rain > 0 then " " ++ toString rain ++ "%" else "") ++ "\n"

/-- The `for i in range(1, 4)` loop of `create_openmeteo_tooltip`
(open_meteo.py lines 90–102), accumulating into `tooltip`.  The body indexes
`hourly["temperature_2m"]` (guarded), `hourly["weather_code"]` and
`hourly["precipitation_probability"]` (both unguarded); an out-of-range index
or missing key raises, which the function's `except` turns into the error
result — modelled by `none`. -/
def next3_loop (hourly : HourlyData) (current_hour : Nat) : List Nat → String → Option String
  | [], acc => some acc
  | i :: rest, acc =>
    let hour_idx := current_hour + i
    if hour_idx < hourly.temperature_2m.length then
      match hourly.temperature_2m.get? hour_idx, hourly.weather_code.get? hour_idx,
            hourly.precipitation_probability with
      | some ht, some hc, some pp =>
        match pp.get? hour_idx with
        | some hr =>
            next3_loop hourly current_hour rest (acc ++ hour_line current_hour i ht hc hr)
        | none => none
      | _, _, _ => none
    else next3_loop hourly current_hour rest acc

/-- The part of the tooltip built before the hour loop (open_meteo.py lines
75–88): the header lines, the optional precipitation line (guarded by the
truthiness of `hourly.get("precipitation_probability")`, then reading index
`[0]`), and the `"\n<b>Next 3h</b>\n"` heading. -/
def tooltip_head (current : CurrentData) (hourly : HourlyData) (place_name : String) :
    String :=
  let t0 := "<b>" ++ place_name ++ "</b>\n"
    ++ "Temp: <b>" ++ toString current.temperature_2m ++ "°C</b>\n"
    ++ "Feels like: " ++ toString current.apparent_temperature ++ "°C\n"
    ++ "Wind: " ++ toString current.wind_speed_10m ++ " km/h\n"
    ++ "Humidity: " ++ toString current.relative_humidity_2m ++ "%\n"
  let t1 := match hourly.precipitation_probability with
    | some (p :: _) => t0 ++ "Precipitation: " ++ toString p ++ "%\n"
    | _ => t0
  t1 ++ "\n<b>Next 3h</b>\n"

/-- The body of `create_openmeteo_tooltip` after `current` and `hourly` have
been read: the header, then the "Next 3h" strip; `strip()` at the end.
`none` models an exception reaching the function's `except` handler. -/
def tooltip_body (current : CurrentData) (hourly : HourlyData) (place_name : String)
    (current_hour : Nat) : Option String :=
  (next3_loop hourly current_hour [1, 2, 3] (tooltip_head current hourly place_name)).map
    py_strip

/-- Model of `create_openmeteo_tooltip(weather_data, place_name)`
(open_meteo.py lines 68–107).  `datetime.now().hour` is passed explicitly as
`current_hour`.  Reading a missing `"current"` or `"hourly"` key raises, so
those cases also land in the `except` branch. -/
def create_openmeteo_tooltip (wd : WeatherData) (place_name : String)
    (current_hour : Nat) : String :=
  match wd.current, wd.hourly with
  | some c, some h => (tooltip_body c h place_name current_hour).getD "Error creating tooltip"
  | _, _ => "Error creating tooltip"

/-! ### Location resolver (`coord_finder`, open_meteo.py lines 111–138 and
location.py lines 28–52 — the two functions are line-for-line identical) -/

/-- The `[city, lat, lon]` list a provider returns on success.  Coordinates
are numbers (integers per the numeric modelling convention). -/
structure Location where
  city : String
  lat : Int
  lon : Int
deriving Repr, DecidableEq

/-- The outcome of calling one provider function (`get_loc_ipinfo`,
`get_loc_freeipapi`, `get_loc_ipapi`): a `[city, lat, lon]` list, `None`
(the provider's own handler swallowed its failure), or an exception escaping
the helper (caught by `coord_finder`'s per-provider `except`). -/
inductive ProviderResult where
  | ok (city : String) (lat lon : Int)
  | noResult
  | exn
deriving Repr, DecidableEq

/-- Model of `coord_finder()`: walk the provider outcomes in order and return
the first success; `None` when the loop finishes with no success.  A `None`
result is falsy, so the loop moves on; an exception is caught by the loop's
`except` and the loop moves on. -/
def coord_finder : List ProviderResult → Option Location
  | [] => none
  | ProviderResult.ok c la lo :: _ => some ⟨c, la, lo⟩
  | ProviderResult.noResult :: rest => coord_finder rest
  | ProviderResult.exn :: rest => coord_finder rest

/-- How many providers `coord_finder` invokes on the given outcome list: the
loop stops at the first success and never revisits an earlier provider. -/
def coord_finder_attempts : List ProviderResult → Nat
  | [] => 0
  | ProviderResult.ok _ _ _ :: _ => 1
  | ProviderResult.noResult :: rest => coord_finder_attempts rest + 1
  | ProviderResult.exn :: rest => coord_finder_attempts rest + 1

/-- Truthiness of one provider outcome inside `coord_finder`'s loop. -/
def is_success : ProviderResult → Bool
  | ProviderResult.ok _ _ _ => true
  | _ => false

/-! ### Main execution (open_meteo.py lines 275–339) -/

/-- The thermometer glyph of the unavailable placeholder (U+1F321 U+FE0F,
spelled by code point). -/
def therm_icon : String :=
  String.singleton (Char.ofNat 0x1f321) ++ String.singleton (Char.ofNat 0xfe0f)

/-- The glyph preceding "Error" in the last-resort payload (U+F128). -/
def question_icon : String := String.singleton (Char.ofNat 0xf128)

/-- The payload printed by the outer `except` (open_meteo.py lines 330–337). -/
def error_payload : JValue :=
  JValue.obj [("text", JValue.str (question_icon ++ " Error")),
              ("tooltip", JValue.str "Check ~/.cache/waybar_weather.log")]

/-- The fixed unavailable placeholder (open_meteo.py line 325). -/
def placeholder_payload (place : String) : JValue :=
  JValue.obj [("text", JValue.str (therm_icon ++ " --°")),
              ("tooltip", JValue.str ("Weather unavailable for " ++ place))]

/-- The payload built on API success (open_meteo.py lines 292–302). -/
def success_payload (wd : WeatherData) (c : CurrentData) (place : String)
    (current_hour : Nat) : JValue :=
  let icon := select_icon (toString c.weather_code) c.is_day
  JValue.obj
    [("text", JValue.str (place ++ ": " ++ icon ++ " " ++ toString c.temperature_2m ++ "°")),
     ("tooltip", JValue.str (create_openmeteo_tooltip wd place current_hour))]

/-- What the cache-hit branch prints (open_meteo.py lines 318–323): the
entry's `"data"` value, verbatim.  A missing `"data"` or `"timestamp"` key
raises `KeyError`, and a non-numeric timestamp makes
`datetime.fromtimestamp` raise; either lands in the outer `except`, which
prints `error_payload`.  (`fromtimestamp` accepts a `bool`, an `int`
subtype.) -/
def extract_cached (e : JValue) : JValue :=
  match e with
  | JValue.obj kvs =>
      match List.lookup "data" kvs with
      | none => error_payload
      | some d =>
          match List.lookup "timestamp" kvs with
          | some (JValue.num _) => d
          | some (JValue.bool _) => d
          | _ => error_payload
  | _ => error_payload

/-- The `if not data:` fallback block (open_meteo.py lines 311–326): cache
lookup for `place`, then either the cached data or the placeholder. -/
def cache_fallback (log : List CacheLine) (place : String) : JValue :=
  match get_cache log place with
  | some e => extract_cached e
  | none => placeholder_payload place

/-- Model of the `__main__` block of open_meteo.py (lines 275–339): the JSON
value printed to stdout.  `fetch` is the result of
`openmeteo_get_weather_data` (`none` for its failure return); it is only
consulted when `coord_finder` succeeded, matching the control flow.  The
success path also appends to the cache via `weather_log`; `main_run` returns
the printed value, and the cache effect is covered by `weather_log`
directly. -/
def main_run (providers : List ProviderResult) (fetch : Option WeatherData)
    (log : List CacheLine) (current_hour : Nat) : JValue :=
  match coord_finder providers with
  | some loc =>
      match fetch with
      | some wd =>
          match wd.current with
          | some c => success_payload wd c loc.city current_hour
          | none => cache_fallback log loc.city
      | none => cache_fallback log loc.city
  | none => cache_fallback log "Unknown"

/-- The place name the main block holds when the fallback runs: the resolved
city, or the `"Unknown"` default when resolution failed. -/
def resolved_place (providers : List ProviderResult) : String :=
  match coord_finder providers with
  | some loc => loc.city
  | none => "Unknown"

/-- Whether the weather fetch failed for the main block's purposes:
`openmeteo_get_weather_data` returned `None`, or the payload has no
`"current"` key (`if weather_data and "current" in weather_data`). -/
def fetch_failed : Option WeatherData → Prop
  | none => True
  | some wd => wd.current = none

/-- Whether a printed JSON value is an object carrying both `"text"` and
`"tooltip"` keys. -/
def has_output_keys : JValue → Bool
  | JValue.obj kvs => (List.lookup "text" kvs).isSome && (List.lookup "tooltip" kvs).isSome
  | _ => false

/-! ### Auxiliary notions used only to state claims -/

/-- Whether the character list starts with the given pattern. -/
def chars_start_with : List Char → List Char → Bool
  | [], _ => true
  | _ :: _, [] => false
  | p :: ps, c :: cs => p == c && chars_start_with ps cs

/-- Whether the pattern occurs somewhere in the character list. -/
def chars_contain (pat : List Char) : List Char → Bool
  | [] => chars_start_with pat []
  | c :: cs => chars_start_with pat (c :: cs) || chars_contain pat cs

/-- Whether `pat` occurs as a contiguous substring of `s`. -/
def str_contains (s pat : String) : Bool := chars_contain pat.data s.data

/-- The precipitation line of the tooltip for value `n`, without its trailing
newline. -/
def precip_line (n : Int) : String := "Precipitation: " ++ toString n ++ "%"

/-- Concatenation of a list of tooltip lines. -/
def join_lines : List String → String
  | [] => ""
  | s :: rest => s ++ join_lines rest

/-- The "Next 3h" strip the specification describes: one line per offset
`i ∈ [1, 2, 3]`, keeping exactly the offsets whose index lies inside
`temperature_2m`, each line showing that index's temperature, weather code
icon and precipitation probability. -/
def next3_expected (hourly : HourlyData) (current_hour : Nat) : String :=
  join_lines (([1, 2, 3].filter
      (fun i => current_hour + i < hourly.temperature_2m.length)).map
    (fun i => hour_line current_hour i
      ((hourly.temperature_2m.get? (current_hour + i)).getD 0)
      ((hourly.weather_code.get? (current_hour + i)).getD 0)
      (((hourly.precipitation_probability.getD []).get? (current_hour + i)).getD 0)))

/-! ### Concrete data for counterexamples and witnesses -/

/-- A cache log whose two well-formed entries for `"P"` carry decreasing
timestamps: the later line (file order) has the earlier timestamp. -/
def c1_log : List CacheLine :=
  [CacheLine.parsed (cache_entry "P" (JValue.str "A") 100),
   CacheLine.parsed (cache_entry "P" (JValue.str "B") 50)]

/-- A payload whose `weather_code` hourly array is shorter than its
`temperature_2m` array (and both shorter than `current_hour + 3` for
`current_hour = 0`). -/
def c2_wd : WeatherData :=
  { current := some ⟨20, 50, 19, 0, 7, 1⟩,
    hourly := some { temperature_2m := [20, 21], weather_code := [],
                     precipitation_probability := some [5] } }

/-- A cache log whose single entry for `"Unknown"` has a number, not a
snapshot object, in its `"data"` field. -/
def c4_log : List CacheLine :=
  [CacheLine.parsed (cache_entry "Unknown" (JValue.num 5) 1)]

/-- Hourly arrays whose precipitation probabilities differ hour by hour. -/
def c8_hourly : HourlyData :=
  { temperature_2m := [20, 21, 22, 23], weather_code := [0, 1, 2, 3],
    precipitation_probability := some [10, 20, 30, 40] }

/-- A payload with full hourly arrays whose precipitation probabilities
differ hour by hour. -/
def c8_wd : WeatherData :=
  { current := some ⟨20, 50, 19, 0, 7, 1⟩, hourly := some c8_hourly }

/-- The tooltip the script builds for `c8_wd` at midnight. -/
def c8_tooltip : String :=
  (tooltip_body ⟨20, 50, 19, 0, 7, 1⟩ c8_hourly "X" 0).getD ""

/-! ### Helper lemmas -/

theorem string_append_assoc (a b c : String) : a ++ b ++ c = a ++ (b ++ c) := by
  apply String.ext
  simp [List.append_assoc]

theorem string_append_empty (s : String) : s ++ "" = s := by
  apply String.ext
  have h : ("" : String).data = [] := rfl
  rw [String.data_append, h, List.append_nil]

/-- A nondecreasing integer list is bounded by its last element. -/
theorem chain_le_getLast (l : List Int) :
    l.Chain' (· ≤ ·) → ∀ a : Int, l.getLast? = some a → ∀ x ∈ l, x ≤ a := by
  induction l with
  | nil => intro _ a ha; simp at ha
  | cons y rest ih =>
    intro hc a ha x hx
    cases rest with
    | nil =>
      simp only [List.getLast?_singleton, Option.some.injEq] at ha
      simp only [List.mem_singleton] at hx
      omega
    | cons z t =>
      rw [List.chain'_cons] at hc
      rw [List.getLast?_cons_cons] at ha
      rcases List.mem_cons.mp hx with rfl | hx'
      · exact le_trans hc.1 (ih hc.2 a ha z (List.mem_cons_self z t))
      · exact ih hc.2 a ha x hx'

/-- Under the no-abort condition, the scan returns the first matching entry
of its argument list. -/
theorem scan_cache_eq_head (m : List CacheLine) (place : String)
    (hobj : ∀ l ∈ m, line_is_object l = true) :
    scan_cache m place = (m.filterMap (match_entry place)).head? := by
  induction m with
  | nil => rfl
  | cons l rest ih =>
    have ih' := ih fun x hx => hobj x (List.mem_cons_of_mem _ hx)
    cases l with
    | malformed => simpa [scan_cache, match_entry] using ih'
    | parsed v =>
      cases v with
      | obj kvs =>
        by_cases hm : place_matches kvs place
        · simp [scan_cache, match_entry, hm]
        · simp [scan_cache, match_entry, hm, ih']
      | null => exact absurd (hobj _ (List.mem_cons_self ..)) (by simp [line_is_object])
      | bool b => exact absurd (hobj _ (List.mem_cons_self ..)) (by simp [line_is_object])
      | num n => exact absurd (hobj _ (List.mem_cons_self ..)) (by simp [line_is_object])
      | str s => exact absurd (hobj _ (List.mem_cons_self ..)) (by simp [line_is_object])
      | arr xs => exact absurd (hobj _ (List.mem_cons_self ..)) (by simp [line_is_object])

/-- Under the no-abort condition, `get_cache` returns the matching
well-formed entry that appears last in file order. -/
theorem get_cache_eq_getLast (log : List CacheLine) (place : String)
    (hobj : all_lines_objects log) :
    get_cache log place = (matching_entries log place).getLast? := by
  have h := scan_cache_eq_head log.reverse place
    (fun l hl => hobj l (List.mem_reverse.mp hl))
  rw [get_cache, h, List.filterMap_reverse, List.head?_reverse, matching_entries]

/-- Each step of the hour loop only ever appends to its accumulator. -/
theorem next3_loop_append (hourly : HourlyData) (current_hour : Nat) :
    ∀ (idxs : List Nat) (acc r : String),
      next3_loop hourly current_hour idxs acc = some r → ∃ tail, r = acc ++ tail := by
  intro idxs
  induction idxs with
  | nil =>
    intro acc r hr
    simp only [next3_loop, Option.some.injEq] at hr
    exact ⟨"", by rw [string_append_empty, hr]⟩
  | cons i rest ih =>
    intro acc r hr
    simp only [next3_loop] at hr
    by_cases hi : current_hour + i < hourly.temperature_2m.length
    · rw [if_pos hi] at hr
      split at hr
      all_goals first
        | exact Option.noConfusion hr
        | skip
      split at hr
      all_goals first
        | exact Option.noConfusion hr
        | skip
      obtain ⟨tail, htail⟩ := ih _ _ hr
      exact ⟨_, htail.trans (string_append_assoc _ _ _)⟩
    · rw [if_neg hi] at hr
      exact ih _ _ hr

/-- When both unguarded arrays reach at least as far as `temperature_2m`, the
hour loop never raises and appends exactly the lines of the in-range
offsets. -/
theorem next3_loop_eq_filtered (hourly : HourlyData) (pp : List Int) (current_hour : Nat)
    (hpp : hourly.precipitation_probability = some pp)
    (hwc : hourly.temperature_2m.length ≤ hourly.weather_code.length)
    (hppl : hourly.temperature_2m.length ≤ pp.length) :
    ∀ (idxs : List Nat) (acc : String),
      next3_loop hourly current_hour idxs acc =
        some (acc ++ join_lines ((idxs.filter
            (fun i => current_hour + i < hourly.temperature_2m.length)).map
          (fun i => hour_line current_hour i
            ((hourly.temperature_2m.get? (current_hour + i)).getD 0)
            ((hourly.weather_code.get? (current_hour + i)).getD 0)
            ((pp.get? (current_hour + i)).getD 0)))) := by
  intro idxs
  induction idxs with
  | nil =>
    intro acc
    simp [next3_loop, join_lines, string_append_empty]
  | cons i rest ih =>
    intro acc
    by_cases hi : current_hour + i < hourly.temperature_2m.length
    · have h1 := List.get?_eq_get hi
      have h2 := List.get?_eq_get
        (show current_hour + i < hourly.weather_code.length from lt_of_lt_of_le hi hwc)
      have h3 := List.get?_eq_get
        (show current_hour + i < pp.length from lt_of_lt_of_le hi hppl)
      simp only [next3_loop, if_pos hi, h1, h2, hpp, h3]
      rw [ih]
      congr 1
      simp only [List.filter_cons, hi, decide_True, if_true, List.map_cons, join_lines,
        h1, h2, h3, Option.getD_some]
      rw [string_append_assoc]
    · simp only [next3_loop, if_neg hi]
      rw [ih]
      congr 1
      simp [List.filter_cons, hi]

/-- A successful cache lookup always yields a JSON object. -/
theorem get_cache_is_obj (log : List CacheLine) (place : String) (e : JValue)
    (h : get_cache log place = some e) : ∃ kvs, e = JValue.obj kvs := by
  rw [get_cache] at h
  generalize log.reverse = m at h
  induction m with
  | nil => exact absurd h (by simp [scan_cache])
  | cons l rest ih =>
    cases l with
    | malformed => exact ih (by simpa [scan_cache] using h)
    | parsed v =>
      cases v with
      | obj kvs =>
        rw [scan_cache] at h
        by_cases hm : place_matches kvs place
        · rw [if_pos hm] at h
          exact ⟨kvs, (Option.some.inj h).symm⟩
        · rw [if_neg hm] at h
          exact ih h
      | null => exact absurd h (by simp [scan_cache])
      | bool b => exact absurd h (by simp [scan_cache])
      | num n => exact absurd h (by simp [scan_cache])
      | str s => exact absurd h (by simp [scan_cache])
      | arr xs => exact absurd h (by simp [scan_cache])

/-! ### Claim theorems -/

/-- C5: for every run in which all location providers fail (each returns no
result or raises), `coord_finder` returns the no-result sentinel `None`. -/
theorem coord_finder_all_fail (providers : List ProviderResult)
    (h : ∀ r ∈ providers, is_success r = false) :
    coord_finder providers = none := by
  induction providers with
  | nil => rfl
  | cons r rest ih =>
    cases r with
    | ok c la lo => exact absurd (h _ (List.mem_cons_self ..)) (by simp [is_success])
    | noResult => exact ih fun x hx => h x (List.mem_cons_of_mem _ hx)
    | exn => exact ih fun x hx => h x (List.mem_cons_of_mem _ hx)

/-- Witness for C5: three failing providers (the script's provider list has
three entries) yield `none`. -/
theorem coord_finder_all_fail_witness :
    coord_finder [ProviderResult.noResult, ProviderResult.exn, ProviderResult.noResult] =
      none :=
  coord_finder_all_fail _ (by decide)

/-- C6: when some providers fail first (returning no result or raising) and a
later provider succeeds, `coord_finder` returns exactly that first successful
provider's `[city, lat, lon]`, and the number of providers invoked is the
number of failed ones plus one — each provider before the success is
attempted exactly once, and none after it is attempted at all. -/
theorem coord_finder_first_success (failed rest : List ProviderResult)
    (city : String) (lat lon : Int)
    (h : ∀ r ∈ failed, is_success r = false) :
    coord_finder (failed ++ ProviderResult.ok city lat lon :: rest) =
      some ⟨city, lat, lon⟩ ∧
    coord_finder_attempts (failed ++ ProviderResult.ok city lat lon :: rest) =
      failed.length + 1 := by
  induction failed with
  | nil => exact ⟨rfl, rfl⟩
  | cons r pr ih =>
    have hr := h r (List.mem_cons_self ..)
    have ih' := ih fun x hx => h x (List.mem_cons_of_mem _ hx)
    cases r with
    | ok c la lo => exact absurd hr (by simp [is_success])
    | noResult =>
      refine ⟨ih'.1, ?_⟩
      show coord_finder_attempts (pr ++ _) + 1 = pr.length + 1 + 1
      rw [ih'.2]
    | exn =>
      refine ⟨ih'.1, ?_⟩
      show coord_finder_attempts (pr ++ _) + 1 = pr.length + 1 + 1
      rw [ih'.2]

/-- Witness for C6: one failing provider, then a success, then an untried
provider. -/
theorem coord_finder_first_success_witness :
    coord_finder [ProviderResult.exn, ProviderResult.ok "Delhi" 28 77,
        ProviderResult.noResult] = some ⟨"Delhi", 28, 77⟩ ∧
    coord_finder_attempts [ProviderResult.exn, ProviderResult.ok "Delhi" 28 77,
        ProviderResult.noResult] = 2 :=
  coord_finder_first_success [ProviderResult.exn] [ProviderResult.noResult]
    "Delhi" 28 77 (by decide)

/-- C7: with weather code `0`, a truthy `is_day` selects the day table's
entry for key `"0"` (U+F522) and a falsy `is_day` selects the night table's
entry for key `"0"` (U+F186); the two tables are distinct maps. -/
theorem select_icon_code_zero (d : Int) (hd : d ≠ 0) :
    select_icon "0" d = icons_day_get "0" ∧
    icons_day_get "0" = String.singleton (Char.ofNat 0xf522) ∧
    select_icon "0" 0 = icons_night_get "0" ∧
    icons_night_get "0" = String.singleton (Char.ofNat 0xf186) ∧
    icons_day ≠ icons_night :=
  ⟨by simp [select_icon, hd], by decide, by simp [select_icon], by decide, by decide⟩

/-- Witness for C7: `is_day = 1`, as the API reports by day. -/
theorem select_icon_code_zero_witness :
    select_icon "0" 1 = icons_day_get "0" ∧
    icons_day_get "0" = String.singleton (Char.ofNat 0xf522) ∧
    select_icon "0" 0 = icons_night_get "0" ∧
    icons_night_get "0" = String.singleton (Char.ofNat 0xf186) ∧
    icons_day ≠ icons_night :=
  select_icon_code_zero 1 (by decide)

/-- C9: appending a snapshot for a place with `weather_log` and then looking
the place up with `get_cache` returns exactly the appended entry, whose
`"data"` field — what the fallback path restores — is the appended
snapshot.  This holds for every prior log: the appended line is the first
one the reversed scan visits. -/
theorem weather_log_get_cache_roundtrip (log : List CacheLine) (place : String)
    (data : JValue) (ts : Int) :
    get_cache (weather_log log place data ts) place = some (cache_entry place data ts) ∧
    extract_cached (cache_entry place data ts) = data := by
  constructor
  · show scan_cache (weather_log log place data ts).reverse place = _
    rw [weather_log, List.reverse_append]
    simp [scan_cache, place_matches, cache_entry, List.lookup]
  · rfl

/-- C10: icon lookup is total with default `""`: any code string outside the
tables selects the empty-string icon, both through the main block's
`select_icon` (day or night) and through the tooltip's hourly lookup. -/
theorem icon_lookup_default (code : String)
    (hd : List.lookup code icons_day = none)
    (hn : List.lookup code icons_night = none) :
    (∀ d : Int, select_icon code d = "") ∧
    icons_day_get code = "" ∧ icons_night_get code = "" := by
  have h1 : icons_day_get code = "" := by simp [icons_day_get, hd]
  have h2 : icons_night_get code = "" := by simp [icons_night_get, hn]
  refine ⟨fun d => ?_, h1, h2⟩
  by_cases h : d = 0
  · simp [select_icon, h, h2]
  · simp [select_icon, h, h1]

/-- Witness for C10: the valid Open-Meteo code `7` is in neither table. -/
theorem icon_lookup_default_witness :
    select_icon "7" 5 = "" ∧ select_icon "7" 0 = "" ∧ icons_day_get "7" = "" := by
  obtain ⟨h1, h2, _⟩ := icon_lookup_default "7" (by decide) (by decide)
  exact ⟨h1 5, h1 0, h2⟩

/-- C1 counterexample: in `c1_log` both entries are well formed and match
place `"P"`; the one with the latest timestamp has timestamp `100`, but
`get_cache` returns the entry appearing last in file order, whose timestamp
is `50`.  The claim's property fails on this log. -/
theorem get_cache_not_latest_timestamp : ¬ latest_timestamp_spec c1_log "P" := by
  intro h
  have h2 := (h.2 (cache_entry "P" (JValue.str "B") 50) rfl).2 100 (by decide)
  have h3 : (100 : Int) ≤ 50 := h2
  omega

/-- C1 (amended): `get_cache` returns the matching well-formed entry that
appears last in file order, skipping lines that fail to parse; this is the
entry with the latest timestamp whenever (a) every parsed line is a JSON
object (a parsed non-object aborts the scan) and (b) the matching entries'
timestamps are nondecreasing in file order, as append-only logging
produces.  When no well-formed entry matches, the lookup comes back
empty. -/
theorem get_cache_latest_timestamp_of_sorted (log : List CacheLine) (place : String)
    (hobj : all_lines_objects log)
    (hsorted : (match_timestamps log place).Chain' (· ≤ ·)) :
    latest_timestamp_spec log place := by
  have hg := get_cache_eq_getLast log place hobj
  constructor
  · intro hnone
    rw [hg] at hnone
    rw [match_timestamps, List.getLast?_eq_none_iff.mp hnone]
    rfl
  · intro e he
    rw [hg] at he
    have hmem : e ∈ matching_entries log place := List.mem_of_getLast?_eq_some he
    have hlast : (match_timestamps log place).getLast? = some (entry_timestamp e) := by
      rw [match_timestamps, List.getLast?_map, he, Option.map_some']
    exact ⟨List.mem_map_of_mem _ hmem,
      fun t ht => chain_le_getLast _ hsorted _ hlast t ht⟩

/-- Witness for C1 (amended): a log with a malformed line between two
well-formed entries whose timestamps increase in file order. -/
theorem get_cache_latest_timestamp_of_sorted_witness :
    latest_timestamp_spec
      [CacheLine.parsed (cache_entry "P" (JValue.str "A") 10),
       CacheLine.malformed,
       CacheLine.parsed (cache_entry "P" (JValue.str "B") 20)] "P" :=
  get_cache_latest_timestamp_of_sorted _ "P"
    (by intro l hl; fin_cases hl <;> rfl)
    (by
      have h : match_timestamps
          [CacheLine.parsed (cache_entry "P" (JValue.str "A") 10),
           CacheLine.malformed,
           CacheLine.parsed (cache_entry "P" (JValue.str "B") 20)] "P" = [10, 20] := rfl
      rw [h]
      exact List.chain'_cons.mpr ⟨by norm_num, List.chain'_singleton _⟩)

/-- C2 counterexample: `c2_wd` has hourly arrays shorter than
`current_hour + 3` (for `current_hour = 0`), with `weather_code` shorter than
`temperature_2m`; instead of omitting the missing hours, tooltip creation
falls into the error branch. -/
theorem tooltip_short_weather_code_error :
    create_openmeteo_tooltip c2_wd "X" 0 = "Error creating tooltip" := rfl

/-- C2 (amended): provided `weather_code` and `precipitation_probability`
reach at least as far as `temperature_2m` (the only array whose length the
loop checks) and the precipitation key is present, tooltip creation never
raises: it omits exactly the forecast hours whose index falls outside
`temperature_2m` and produces the normal tooltip.  With `weather_code` or
`precipitation_probability` shorter than `temperature_2m`, an in-range hour
raises and the error branch is taken instead. -/
theorem tooltip_skips_out_of_range_hours (c : CurrentData) (h : HourlyData)
    (pp : List Int) (place : String) (current_hour : Nat)
    (hpp : h.precipitation_probability = some pp)
    (hwc : h.temperature_2m.length ≤ h.weather_code.length)
    (hppl : h.temperature_2m.length ≤ pp.length) :
    tooltip_body c h place current_hour =
      some (py_strip (tooltip_head c h place ++ next3_expected h current_hour)) ∧
    create_openmeteo_tooltip ⟨some c, some h⟩ place current_hour =
      py_strip (tooltip_head c h place ++ next3_expected h current_hour) := by
  have hbody : tooltip_body c h place current_hour =
      some (py_strip (tooltip_head c h place ++ next3_expected h current_hour)) := by
    rw [tooltip_body, next3_loop_eq_filtered h pp current_hour hpp hwc hppl,
      Option.map_some', next3_expected, hpp, Option.getD_some]
  refine ⟨hbody, ?_⟩
  show (tooltip_body c h place current_hour).getD "Error creating tooltip" = _
  rw [hbody]
  rfl

/-- Witness for C2 (amended): arrays of equal length `2` with
`current_hour = 0`: hour `+1` is in range, hours `+2` and `+3` are omitted,
and the normal tooltip is produced. -/
theorem tooltip_skips_out_of_range_hours_witness :
    tooltip_body ⟨20, 50, 19, 0, 7, 1⟩
        ⟨[20, 21], [0, 0], some [5, 5]⟩ "X" 0 =
      some (py_strip (tooltip_head ⟨20, 50, 19, 0, 7, 1⟩ ⟨[20, 21], [0, 0], some [5, 5]⟩ "X"
        ++ next3_expected ⟨[20, 21], [0, 0], some [5, 5]⟩ 0)) ∧
    create_openmeteo_tooltip ⟨some ⟨20, 50, 19, 0, 7, 1⟩, some ⟨[20, 21], [0, 0], some [5, 5]⟩⟩
        "X" 0 =
      py_strip (tooltip_head ⟨20, 50, 19, 0, 7, 1⟩ ⟨[20, 21], [0, 0], some [5, 5]⟩ "X"
        ++ next3_expected ⟨[20, 21], [0, 0], some [5, 5]⟩ 0) :=
  tooltip_skips_out_of_range_hours ⟨20, 50, 19, 0, 7, 1⟩ ⟨[20, 21], [0, 0], some [5, 5]⟩
    [5, 5] "X" 0 rfl (by decide) (by decide)

/-- C3: when location resolution fails or the weather fetch fails, the main
block falls back to the cache lookup for the resolved place (the city, or
`"Unknown"` when resolution itself failed): a cache entry of the documented
shape is printed as its stored snapshot, and with no cache entry the fixed
placeholder is printed — its text the thermometer glyph and temperature
dash, its tooltip the unavailability message. -/
theorem main_fallback_on_failure (providers : List ProviderResult)
    (fetch : Option WeatherData) (log : List CacheLine) (current_hour : Nat)
    (hfail : coord_finder providers = none ∨ fetch_failed fetch) :
    (∀ kvs d ts, get_cache log (resolved_place providers) = some (JValue.obj kvs) →
      List.lookup "data" kvs = some d →
      List.lookup "timestamp" kvs = some (JValue.num ts) →
      main_run providers fetch log current_hour = d) ∧
    (get_cache log (resolved_place providers) = none →
      main_run providers fetch log current_hour =
        JValue.obj [("text", JValue.str (therm_icon ++ " --°")),
          ("tooltip", JValue.str ("Weather unavailable for " ++ resolved_place providers))]) := by
  have hmain : main_run providers fetch log current_hour =
      cache_fallback log (resolved_place providers) := by
    rcases hc : coord_finder providers with _ | loc
    · simp [main_run, resolved_place, hc]
    · rcases hfail with hmiss | hf
      · rw [hc] at hmiss
        exact absurd hmiss (by simp)
      · rcases hfe : fetch with _ | wd
        · simp [main_run, resolved_place, hc, hfe]
        · rw [hfe] at hf
          have hcur : wd.current = none := hf
          simp [main_run, resolved_place, hc, hfe, hcur]
  constructor
  · intro kvs d ts h1 h2 h3
    rw [hmain, cache_fallback, h1]
    simp [extract_cached, h2, h3]
  · intro h0
    rw [hmain, cache_fallback, h0]
    rfl

/-- Witness for C3: all three providers fail and the cache is empty; the
placeholder for `"Unknown"` is printed. -/
theorem main_fallback_on_failure_witness :
    main_run [ProviderResult.noResult, ProviderResult.exn, ProviderResult.noResult]
        none [] 0 =
      JValue.obj [("text", JValue.str (therm_icon ++ " --°")),
        ("tooltip", JValue.str ("Weather unavailable for Unknown"))] :=
  (main_fallback_on_failure [ProviderResult.noResult, ProviderResult.exn,
    ProviderResult.noResult] none [] 0 (Or.inl rfl)).2 rfl

/-- C4 counterexample: with no providers responding and a cache whose entry
for `"Unknown"` stores the number `5` in its `"data"` field, the main block
prints `5` — a JSON value without the keys `text` and `tooltip`. -/
theorem main_output_keys_counterexample :
    main_run [] none c4_log 0 = JValue.num 5 ∧
    has_output_keys (main_run [] none c4_log 0) = false := ⟨rfl, rfl⟩

/-- C4 (amended): the main block is a total function of the provider
results, fetch result and cache contents — every failure combination yields
exactly one printed JSON value, never an abnormal termination.  The value
carries the keys `text` and `tooltip` in every case but one: a cache
fallback that finds an entry whose `"data"` field is not such an object
prints that stored field verbatim. -/
theorem main_always_prints_payload (providers : List ProviderResult)
    (fetch : Option WeatherData) (log : List CacheLine) (current_hour : Nat) :
    has_output_keys (main_run providers fetch log current_hour) = true ∨
    (∃ kvs, get_cache log (resolved_place providers) = some (JValue.obj kvs) ∧
      List.lookup "data" kvs = some (main_run providers fetch log current_hour)) := by
  have hfb : ∀ place, place = resolved_place providers →
      has_output_keys (cache_fallback log place) = true ∨
      (∃ kvs, get_cache log (resolved_place providers) = some (JValue.obj kvs) ∧
        List.lookup "data" kvs = some (cache_fallback log place)) := by
    intro place hplace
    rcases hget : get_cache log place with _ | e
    · left
      have hval : cache_fallback log place = placeholder_payload place := by
        simp only [cache_fallback, hget]
      rw [hval]
      rfl
    · obtain ⟨kvs, rfl⟩ := get_cache_is_obj log place e hget
      rcases hdata : List.lookup "data" kvs with _ | d
      · left
        have hval : cache_fallback log place = error_payload := by
          simp only [cache_fallback, hget, extract_cached, hdata]
        rw [hval]
        rfl
      · rcases hts : List.lookup "timestamp" kvs with _ | tv
        · left
          have hval : cache_fallback log place = error_payload := by
            simp only [cache_fallback, hget, extract_cached, hdata, hts]
          rw [hval]
          rfl
        · cases tv with
          | num n =>
            right
            have hval : cache_fallback log place = d := by
              simp only [cache_fallback, hget, extract_cached, hdata, hts]
            exact ⟨kvs, hplace ▸ hget, by rw [hval]; exact hdata⟩
          | bool b =>
            right
            have hval : cache_fallback log place = d := by
              simp only [cache_fallback, hget, extract_cached, hdata, hts]
            exact ⟨kvs, hplace ▸ hget, by rw [hval]; exact hdata⟩
          | null =>
            left
            have hval : cache_fallback log place = error_payload := by
              simp only [cache_fallback, hget, extract_cached, hdata, hts]
            rw [hval]
            rfl
          | str s =>
            left
            have hval : cache_fallback log place = error_payload := by
              simp only [cache_fallback, hget, extract_cached, hdata, hts]
            rw [hval]
            rfl
          | arr elems =>
            left
            have hval : cache_fallback log place = error_payload := by
              simp only [cache_fallback, hget, extract_cached, hdata, hts]
            rw [hval]
            rfl
          | obj fields =>
            left
            have hval : cache_fallback log place = error_payload := by
              simp only [cache_fallback, hget, extract_cached, hdata, hts]
            rw [hval]
            rfl
  rcases hc : coord_finder providers with _ | loc
  · have h := hfb "Unknown" (by simp only [resolved_place, hc])
    have hm : main_run providers fetch log current_hour = cache_fallback log "Unknown" := by
      simp only [main_run, hc]
    rw [hm]
    exact h
  · rcases fetch with _ | wd
    · have h := hfb loc.city (by simp only [resolved_place, hc])
      have hm : main_run providers none log current_hour = cache_fallback log loc.city := by
        simp only [main_run, hc]
      rw [hm]
      exact h
    · rcases hcur : wd.current with _ | c
      · have h := hfb loc.city (by simp only [resolved_place, hc])
        have hm : main_run providers (some wd) log current_hour =
            cache_fallback log loc.city := by
          simp only [main_run, hc, hcur]
        rw [hm]
        exact h
      · left
        have hm : main_run providers (some wd) log current_hour =
            success_payload wd c loc.city current_hour := by
          simp only [main_run, hc, hcur]
        rw [hm]
        rfl

set_option maxHeartbeats 2000000 in
/-- C8 counterexample: for `c8_wd` at `current_hour = 0`, the next hour's
precipitation probability is `20`, yet the tooltip's precipitation line
reads `10` — the array's first entry — and no precipitation line with value
`20` occurs. -/
theorem precipitation_not_next_hour :
    (c8_hourly.precipitation_probability.getD []).get? (0 + 1) = some 20 ∧
    str_contains (create_openmeteo_tooltip c8_wd "X" 0) (precip_line 20) = false ∧
    str_contains (create_openmeteo_tooltip c8_wd "X" 0) (precip_line 10) = true :=
  ⟨rfl, by decide, by decide⟩

/-- C8 (amended): whenever the hourly precipitation array is present and
non-empty (truthy) and tooltip creation succeeds, the tooltip contains a
precipitation line whose value is the array's first entry (index `0`, the
start of the forecast day) — not the entry for the hour after the current
one. -/
theorem precipitation_line_first_entry (c : CurrentData) (h : HourlyData)
    (p : Int) (tl : List Int) (place : String) (current_hour : Nat) (s : String)
    (hpp : h.precipitation_probability = some (p :: tl))
    (hs : tooltip_body c h place current_hour = some s) :
    ∃ t1 t2, s = py_strip (t1 ++ ("Precipitation: " ++ toString p ++ "%\n") ++ t2) := by
  rw [tooltip_body] at hs
  rcases hloop : next3_loop h current_hour [1, 2, 3] (tooltip_head c h place) with _ | r
  · rw [hloop] at hs
    exact absurd hs (by simp)
  · rw [hloop, Option.map_some'] at hs
    obtain ⟨tail, htail⟩ := next3_loop_append h current_hour _ _ _ hloop
    refine ⟨"<b>" ++ place ++ "</b>\n"
      ++ "Temp: <b>" ++ toString c.temperature_2m ++ "°C</b>\n"
      ++ "Feels like: " ++ toString c.apparent_temperature ++ "°C\n"
      ++ "Wind: " ++ toString c.wind_speed_10m ++ " km/h\n"
      ++ "Humidity: " ++ toString c.relative_humidity_2m ++ "%\n",
      "\n<b>Next 3h</b>\n" ++ tail, ?_⟩
    have hs' : s = py_strip r := (Option.some.inj hs).symm
    rw [hs', htail]
    refine congrArg py_strip ?_
    simp only [tooltip_head, hpp]
    simp only [string_append_assoc]

/-- Witness for C8 (amended): the concrete tooltip for `c8_wd` contains the
precipitation line for the first array entry, `10`. -/
theorem precipitation_line_first_entry_witness :
    ∃ t1 t2, c8_tooltip =
      py_strip (t1 ++ ("Precipitation: " ++ toString (10 : Int) ++ "%\n") ++ t2) :=
  precipitation_line_first_entry ⟨20, 50, 19, 0, 7, 1⟩ c8_hourly 10 [20, 30, 40]
    "X" 0 c8_tooltip rfl rfl

end OpenMeteo
